import Mathlib

/-!
Shallow embedding of `custom_components/gruenbeck_cloud/coordinator.py`
(class `GruenbeckCloudCoordinator`) and proofs about its behaviour.

The Python file is async integration glue over an external vendor client
(`pygruenbeck_cloud`).  We embed each coordinator method as a pure Lean
function from an explicit coordinator state plus an oracle describing the
outcome of every external client call (each call either returns a value or
raises an exception, modelled with `Except`).  Every method additionally
returns the list of externally visible effects it performs, in order, so
that statements about "registers a listener", "calls disconnect",
"notifies listeners exactly once" become statements about that trace.
Python exceptions are modelled by the inductive `PyErr`; the subclass
relation of the vendor exception hierarchy (all four vendor errors are
instances of `PyGruenbeckCloudError`) is reflected by the predicate
`PyErr.isGruenbeckError`.
-/

namespace GruenbeckCloud

/-- One entry of a historical measurement series of the vendor `Device`
model (`item.date`, `item.value` in the list comprehensions of the two
measurement services). -/
structure MeasurementEntry where
  date : String
  value : Int
deriving DecidableEq, Repr

/-- The `realtime` field of a `Device` snapshot.  `withInfo` is a resolved
`DeviceRealtimeInfo` value; `unawaited` is the coroutine object produced by
calling `self.refresh_sd()` without awaiting it (line
`device.realtime = self.refresh_sd()` of `_async_update_data`). -/
inductive RealtimeField
  | noInfo : RealtimeField
  | withInfo (payload : Nat) : RealtimeField
  | unawaited : RealtimeField
deriving DecidableEq, Repr

/-- The vendor `Device` snapshot, restricted to the fields this module
reads or writes: the optional salt and water measurement series and the
realtime sub-field. -/
structure Device where
  salt : Option (List MeasurementEntry)
  water : Option (List MeasurementEntry)
  realtime : RealtimeField
deriving DecidableEq, Repr

/-- Python exceptions visible to this module.  The first four variants are
the vendor exceptions imported from `pygruenbeck_cloud.exceptions`
(`cloudError` is a `PyGruenbeckCloudError` that is none of the three
specific subclasses); `keyError`, `indexError` and `otherException` model
the non-vendor exception classes named in the broad catch of
`_async_update_data`; `homeAssistantError` and `updateFailed` are the two
host-framework errors this module raises.  Each carries its `str(err)`
message. -/
inductive PyErr
  | connectionClosed (msg : String) : PyErr
  | responseStatus (msg : String) : PyErr
  | updateParameter (msg : String) : PyErr
  | cloudError (msg : String) : PyErr
  | keyError (msg : String) : PyErr
  | indexError (msg : String) : PyErr
  | otherException (msg : String) : PyErr
  | homeAssistantError (msg : String) : PyErr
  | updateFailed (msg : String) : PyErr
deriving DecidableEq, Repr

/-- `str(err)` of an exception. -/
def PyErr.msg : PyErr → String
  | .connectionClosed m => m
  | .responseStatus m => m
  | .updateParameter m => m
  | .cloudError m => m
  | .keyError m => m
  | .indexError m => m
  | .otherException m => m
  | .homeAssistantError m => m
  | .updateFailed m => m

/-- `isinstance(err, PyGruenbeckCloudError)`: all four vendor exception
classes derive from the base class. -/
def PyErr.isGruenbeckError : PyErr → Bool
  | .connectionClosed _ => true
  | .responseStatus _ => true
  | .updateParameter _ => true
  | .cloudError _ => true
  | _ => false

/-- `isinstance(err, PyGruenbeckCloudConnectionClosedError)`. -/
def PyErr.isConnectionClosed : PyErr → Bool
  | .connectionClosed _ => true
  | _ => false

/-- `isinstance(err, PyGruenbeckCloudResponseStatusError)`. -/
def PyErr.isResponseStatus : PyErr → Bool
  | .responseStatus _ => true
  | _ => false

/-- `isinstance(err, PyGruenbeckCloudUpdateParameterError)`. -/
def PyErr.isUpdateParameter : PyErr → Bool
  | .updateParameter _ => true
  | _ => false

/-- State of the vendor client object `self.api` that this module reads:
`self.api.device` (truth-tested in `_async_update_data`) and
`self.api.connected`. -/
structure ApiState where
  device : Option Device
  connected : Bool
deriving DecidableEq, Repr

/-- Mutable coordinator state: the client state, the shutdown-listener
unsubscribe handle `self.unsub`, the stored snapshot `self.data` and the
host framework's `self.last_update_success` flag. -/
structure CoordState where
  api : ApiState
  unsub : Option Unit
  data : Option Device
  last_update_success : Bool
deriving DecidableEq, Repr

/-- Externally visible effects performed by the coordinator's code, in
program order.  Calls into the vendor client and into the host framework
are recorded; the payload-carrying variants record the argument passed. -/
inductive Effect
  | setDeviceFromIdCall : Effect
  | getDeviceInfosCall : Effect
  | getDeviceInfosParametersCall : Effect
  | registerShutdownListener : Effect
  | createBackgroundTask : Effect
  | enterSdCall : Effect
  | refreshSdUnawaited : Effect
  | connectCall : Effect
  | listenCall : Effect
  | disconnectCall : Effect
  | unsubCall : Effect
  | updateListeners : Effect
  | updateParametersCall (data : List (String × String)) : Effect
  | logError (msg : String) : Effect
deriving DecidableEq, Repr

/-- One `{"date": ..., "value": ...}` dict of a measurement service
response. -/
structure ResponseEntry where
  date : String
  value : Int
deriving DecidableEq, Repr

/-- The `{"entries": [...]}` `ServiceResponse` of the two measurement
services. -/
structure MeasurementsResponse where
  entries : List ResponseEntry
deriving DecidableEq, Repr

/-- `service_get_device_salt_measurements`.  The argument is the `Device`
returned by the awaited client call
`self.api.get_device_salt_measurements()`; the handler tests
`device.salt is None` and otherwise rebuilds each entry as a
date/value dict, in list order. -/
def service_get_device_salt_measurements (device : Device) : MeasurementsResponse :=
  match device.salt with
  | none => { entries := [] }
  | some items =>
    { entries := items.map (fun item => { date := item.date, value := item.value }) }

/-- `service_get_device_water_measurements`, same shape over
`device.water`. -/
def service_get_device_water_measurements (device : Device) : MeasurementsResponse :=
  match device.water with
  | none => { entries := [] }
  | some items =>
    { entries := items.map (fun item => { date := item.date, value := item.value }) }

/-- `update_device_infos_parameters`.  `client` is the vendor call
`self.api.update_device_infos_parameters`, as a function from the argument
mapping to its outcome.  On success the returned `Device` replaces
`self.data`; a `PyGruenbeckCloudUpdateParameterError` is re-raised as
`HomeAssistantError(err)` (whose `str` is the original message); any other
exception propagates unchanged, and in either error case the assignment to
`self.data` is never executed. -/
def update_device_infos_parameters (s : CoordState)
    (client : List (String × String) → Except PyErr Device)
    (data : List (String × String)) :
    Except PyErr Unit × CoordState × List Effect :=
  match client data with
  | .ok d => (.ok (), { s with data := some d }, [.updateParametersCall data])
  | .error e =>
    if e.isUpdateParameter then
      (.error (.homeAssistantError e.msg), s, [.updateParametersCall data])
    else
      (.error e, s, [.updateParametersCall data])

/-- `service_change_settings`: builds the single-key dict
`{call.data[SERVICE_PARAM_PARAMETER]: call.data[SERVICE_PARAM_VALUE]}` and
awaits `self.update_device_infos_parameters(data)`. -/
def service_change_settings (s : CoordState)
    (client : List (String × String) → Except PyErr Device)
    (parameter value : String) :
    Except PyErr Unit × CoordState × List Effect :=
  update_device_infos_parameters s client [(parameter, value)]

/-- `async_set_updated_data`: replaces the snapshot, marks the update
successful and synchronously notifies all subscribed listeners. -/
def async_set_updated_data (s : CoordState) (d : Device) :
    CoordState × List Effect :=
  ({ s with data := some d, last_update_success := true }, [.updateListeners])

/-- Outcomes of the external client calls made during one poll
(`_async_update_data`): `set_device_from_id` (a success binds
`self.api.device`), `get_device_infos`, `get_device_infos_parameters`
(a success is the canonical `Device` snapshot), and `enter_sd`. -/
structure PollOracle where
  setDeviceResult : Except PyErr Device
  getInfosResult : Except PyErr Unit
  getParamsResult : Except PyErr Device
  enterSdResult : Except PyErr Unit

/-- `_listen_websocket`: registers the one-shot shutdown listener (storing
its unsubscribe callback in `self.unsub`) and schedules the `listen()`
background task. -/
def listen_websocket (s : CoordState) : CoordState × List Effect :=
  ({ s with unsub := some () },
   [.registerShutdownListener, .createBackgroundTask])

/-- The `try` body of `_async_update_data`: resolve the device identity if
unbound, fetch infos, fetch parameters, then either start the websocket
listener (when `not self.api.connected and not self.unsub`) or call
`enter_sd()` and assign the unawaited coroutine `self.refresh_sd()` into
`device.realtime`. -/
def pollTryBody (s : CoordState) (o : PollOracle) :
    Except PyErr Device × CoordState × List Effect :=
  match (match s.api.device with
         | none =>
           match o.setDeviceResult with
           | .ok d =>
             ((.ok () : Except PyErr Unit),
              { s with api := { s.api with device := some d } },
              [Effect.setDeviceFromIdCall])
           | .error e => (.error e, s, [Effect.setDeviceFromIdCall])
         | some _ => ((.ok () : Except PyErr Unit), s, [])) with
  | (.error e, s1, t1) => (.error e, s1, t1)
  | (.ok _, s1, t1) =>
    match o.getInfosResult with
    | .error e => (.error e, s1, t1 ++ [.getDeviceInfosCall])
    | .ok _ =>
      match o.getParamsResult with
      | .error e =>
        (.error e, s1, t1 ++ [.getDeviceInfosCall, .getDeviceInfosParametersCall])
      | .ok device =>
        let t2 := t1 ++ [Effect.getDeviceInfosCall, Effect.getDeviceInfosParametersCall]
        if !s1.api.connected && s1.unsub.isNone then
          match listen_websocket s1 with
          | (s2, t3) => (.ok device, s2, t2 ++ t3)
        else
          match o.enterSdResult with
          | .error e => (.error e, s1, t2 ++ [.enterSdCall])
          | .ok _ =>
            (.ok { device with realtime := .unawaited }, s1,
             t2 ++ [.enterSdCall, .refreshSdUnawaited])

/-- The `except` clause of `_async_update_data`:
`raise UpdateFailed(f"Unable to get data from API: {err}") from err`. -/
def wrapUpdateFailed (e : PyErr) : PyErr :=
  .updateFailed ("Unable to get data from API: " ++ e.msg)

/-- `_async_update_data`: the `try` body with every raised exception
(the catch names `Exception, IndexError, KeyError,
PyGruenbeckCloudResponseStatusError`, so every modelled exception is
caught) converted to an `UpdateFailed` host error. -/
def async_update_data (s : CoordState) (o : PollOracle) :
    Except PyErr Device × CoordState × List Effect :=
  match pollTryBody s o with
  | (.error e, s1, t1) => (.error (wrapUpdateFailed e), s1, t1)
  | (.ok d, s1, t1) => (.ok d, s1, t1)

/-- The four vendor-client calls a poll can make. -/
def pollApiCalls : List Effect :=
  [.setDeviceFromIdCall, .getDeviceInfosCall, .getDeviceInfosParametersCall,
   .enterSdCall]

/-- Outcomes of the external client calls made by the background task
`listen()`: `self.api.connect()` and `self.api.listen(...)`.  `api.listen`
is treated as a black box: a `.ok` result is a normal return of the listen
loop, an `.error` is the exception with which the loop terminated; the
push updates it may deliver to `async_set_updated_data` while running are
the client's behaviour, not part of this task's own code. -/
structure ListenOracle where
  connectResult : Except PyErr Unit
  listenResult : Except PyErr Unit

/-- `if self.unsub: self.unsub(); self.unsub = None`. -/
def clearUnsub (s : CoordState) (t : List Effect) : CoordState × List Effect :=
  match s.unsub with
  | some _ => ({ s with unsub := none }, t ++ [.unsubCall])
  | none => (s, t)

/-- The dispatch of the `except` clauses around `await self.api.listen`:
first `(PyGruenbeckCloudConnectionClosedError,
PyGruenbeckCloudResponseStatusError)` (mark failure, log), then
`PyGruenbeckCloudError` (mark failure, notify listeners, log); any other
exception is uncaught.  Returns the post-`try` outcome, state and the
effects appended after the `listenCall`. -/
def listenExceptDispatch (s : CoordState) (r : Except PyErr Unit) :
    Except PyErr Unit × CoordState × List Effect :=
  match r with
  | .ok _ => (.ok (), s, [])
  | .error e =>
    if e.isConnectionClosed || e.isResponseStatus then
      (.ok (), { s with last_update_success := false }, [.logError e.msg])
    else if e.isGruenbeckError then
      (.ok (), { s with last_update_success := false },
       [.updateListeners, .logError e.msg])
    else
      (.error e, s, [])

/-- The inner async function `listen()` of `_listen_websocket`, run as the
background task.  A failed `connect()` whose exception is a vendor error
is logged, clears the unsubscribe handle and returns; after the listen
loop ends (normally or via a caught exception) the task always calls
`self.api.disconnect()` and clears `self.unsub`.  An exception the code
does not catch propagates out of the task. -/
def listen (s : CoordState) (o : ListenOracle) :
    Except PyErr Unit × CoordState × List Effect :=
  match o.connectResult with
  | .error e =>
    if e.isGruenbeckError then
      match clearUnsub s [Effect.connectCall, Effect.logError e.msg] with
      | (s1, t1) => (.ok (), s1, t1)
    else
      (.error e, s, [.connectCall])
  | .ok _ =>
    match listenExceptDispatch
        { s with api := { s.api with connected := true } } o.listenResult with
    | (.error e, s1, t1) => (.error e, s1, [Effect.connectCall, Effect.listenCall] ++ t1)
    | (.ok _, s1, t1) =>
      match clearUnsub { s1 with api := { s1.api with connected := false } }
          ([Effect.connectCall, Effect.listenCall] ++ t1 ++ [Effect.disconnectCall]) with
      | (s2, t2) => (.ok (), s2, t2)

/-- The shutdown handler `close_websocket` registered by
`_listen_websocket` on `EVENT_HOMEASSISTANT_STOP`: sets `self.unsub` to
`None` and awaits `self.api.disconnect()`. -/
def close_websocket (s : CoordState) : CoordState × List Effect :=
  ({ s with unsub := none, api := { s.api with connected := false } },
   [.disconnectCall])

/-- A concrete device snapshot used to evaluate the theorems below. -/
def sampleDevice : Device :=
  { salt := none, water := none, realtime := .noInfo }

/-- A concrete coordinator state in which push mode is already active:
the client reports `connected` and the device identity is bound. -/
def sampleActiveState : CoordState :=
  { api := { device := some sampleDevice, connected := true },
    unsub := none, data := some sampleDevice, last_update_success := true }

/-- A concrete coordinator state before push setup: not connected and no
unsubscribe handle. -/
def sampleIdleState : CoordState :=
  { api := { device := some sampleDevice, connected := false },
    unsub := none, data := none, last_update_success := true }

/-- A concrete coordinator state with a registered shutdown listener. -/
def sampleSubscribedState : CoordState :=
  { api := { device := some sampleDevice, connected := false },
    unsub := some (), data := none, last_update_success := true }

/-- A poll oracle in which every client call succeeds. -/
def sampleOkOracle : PollOracle :=
  { setDeviceResult := .ok sampleDevice, getInfosResult := .ok (),
    getParamsResult := .ok sampleDevice, enterSdResult := .ok () }

/-- A poll oracle in which fetching the device parameters raises a
`KeyError`. -/
def sampleFailOracle : PollOracle :=
  { setDeviceResult := .ok sampleDevice, getInfosResult := .ok (),
    getParamsResult := .error (.keyError "missing key"), enterSdResult := .ok () }

/-- C3: each measurement service returns `{"entries": []}` (and does not
raise) when the underlying series is absent, and otherwise returns exactly
the (date, value) pairs of the series in the series' order. -/
theorem measurement_services_shape (d : Device) :
    (d.salt = none → (service_get_device_salt_measurements d).entries = []) ∧
    (∀ items, d.salt = some items →
      (service_get_device_salt_measurements d).entries =
        items.map (fun item => { date := item.date, value := item.value })) ∧
    (d.water = none → (service_get_device_water_measurements d).entries = []) ∧
    (∀ items, d.water = some items →
      (service_get_device_water_measurements d).entries =
        items.map (fun item => { date := item.date, value := item.value })) := by
  obtain ⟨salt, water, realtime⟩ := d
  refine ⟨?_, ?_, ?_, ?_⟩
  · rintro rfl
    rfl
  · rintro items rfl
    rfl
  · rintro rfl
    cases salt <;> rfl
  · rintro items rfl
    cases salt <;> rfl

/-- C3 witness: both services evaluated on a concrete device whose salt
series is absent and whose water series has two entries. -/
theorem measurement_services_shape_witness :
    (service_get_device_salt_measurements
      { salt := none,
        water := some [{ date := "2024-01-01", value := 3 },
                       { date := "2024-01-02", value := 4 }],
        realtime := .noInfo }).entries = [] ∧
    (service_get_device_water_measurements
      { salt := none,
        water := some [{ date := "2024-01-01", value := 3 },
                       { date := "2024-01-02", value := 4 }],
        realtime := .noInfo }).entries =
      [{ date := "2024-01-01", value := 3 }, { date := "2024-01-02", value := 4 }] := by
  constructor
  · exact (measurement_services_shape
      { salt := none,
        water := some [{ date := "2024-01-01", value := 3 },
                       { date := "2024-01-02", value := 4 }],
        realtime := .noInfo }).1 rfl
  · exact (measurement_services_shape
      { salt := none,
        water := some [{ date := "2024-01-01", value := 3 },
                       { date := "2024-01-02", value := 4 }],
        realtime := .noInfo }).2.2.2 _ rfl

/-- C4: `service_change_settings` with parameter name `p` and value `v` is
the very same computation as `update_device_infos_parameters` applied to
the single-key mapping `[(p, v)]`: identical client call, identical
resulting coordinator state, identical error behaviour. -/
theorem change_settings_is_single_key_update (s : CoordState)
    (client : List (String × String) → Except PyErr Device)
    (p v : String) :
    service_change_settings s client p v =
      update_device_infos_parameters s client [(p, v)] := rfl

/-- C5: when the vendor parameter-update call raises
`PyGruenbeckCloudUpdateParameterError`, the operation raises a
`HomeAssistantError` whose message contains the original vendor
message. -/
theorem update_parameters_wraps_invalid_parameter (s : CoordState)
    (client : List (String × String) → Except PyErr Device)
    (data : List (String × String)) (m : String)
    (h : client data = .error (.updateParameter m)) :
    ∃ hm, (update_device_infos_parameters s client data).1 =
        .error (.homeAssistantError hm) ∧
      ∃ pre suf, hm = pre ++ m ++ suf := by
  refine ⟨m, ?_, "", "", by simp⟩
  simp [update_device_infos_parameters, h, PyErr.isUpdateParameter, PyErr.msg]

/-- C5 witness: a concrete client that rejects the update with an
invalid-parameter error. -/
theorem update_parameters_wraps_invalid_parameter_witness :
    ∃ hm, (update_device_infos_parameters
        { api := { device := none, connected := false },
          unsub := none, data := none, last_update_success := true }
        (fun _ => .error (.updateParameter "parameter xyz not allowed"))
        [("xyz", "5")]).1 = .error (.homeAssistantError hm) ∧
      ∃ pre suf, hm = pre ++ "parameter xyz not allowed" ++ suf :=
  update_parameters_wraps_invalid_parameter
    { api := { device := none, connected := false },
      unsub := none, data := none, last_update_success := true }
    (fun _ => .error (.updateParameter "parameter xyz not allowed"))
    [("xyz", "5")] "parameter xyz not allowed" rfl

/-- C10: the snapshot is replaced only on success of the client call — on
any exception the coordinator state is unchanged — and only the vendor
invalid-parameter error is wrapped; every other exception propagates
unchanged. -/
theorem update_parameters_atomic (s : CoordState)
    (client : List (String × String) → Except PyErr Device)
    (data : List (String × String)) :
    (∀ e, client data = .error e →
      (update_device_infos_parameters s client data).2.1 = s ∧
      (e.isUpdateParameter = true →
        (update_device_infos_parameters s client data).1 =
          .error (.homeAssistantError e.msg)) ∧
      (e.isUpdateParameter = false →
        (update_device_infos_parameters s client data).1 = .error e)) ∧
    (∀ d, client data = .ok d →
      (update_device_infos_parameters s client data).2.1 =
        { s with data := some d }) := by
  constructor
  · intro e he
    refine ⟨?_, ?_, ?_⟩
    · simp [update_device_infos_parameters, he]
      cases hu : e.isUpdateParameter <;> simp [hu]
    · intro hu
      simp [update_device_infos_parameters, he, hu]
    · intro hu
      simp [update_device_infos_parameters, he, hu]
  · intro d hd
    simp [update_device_infos_parameters, hd]

/-- C10 witness: a concrete state and a client that raises a non-vendor
error; the stored snapshot and whole state are untouched and the error
propagates unchanged. -/
theorem update_parameters_atomic_witness :
    (update_device_infos_parameters
        { api := { device := none, connected := true },
          unsub := some (), data := none, last_update_success := true }
        (fun _ => .error (.otherException "boom"))
        [("p", "1")]).2.1 =
      { api := { device := none, connected := true },
        unsub := some (), data := none, last_update_success := true } ∧
    (update_device_infos_parameters
        { api := { device := none, connected := true },
          unsub := some (), data := none, last_update_success := true }
        (fun _ => .error (.otherException "boom"))
        [("p", "1")]).1 = .error (.otherException "boom") := by
  have h := (update_parameters_atomic
    { api := { device := none, connected := true },
      unsub := some (), data := none, last_update_success := true }
    (fun _ => .error (.otherException "boom"))
    [("p", "1")]).1 (.otherException "boom") rfl
  exact ⟨h.1, h.2.2 rfl⟩

/-- C1: a poll in which push mode is already active (the client reports
connected, or an unsubscribe handle is present) never registers a
shutdown listener and never creates a background listen task; conversely,
those push-setup effects occur only when the client is not connected and
no unsubscribe handle exists. -/
theorem push_setup_guard (s : CoordState) (o : PollOracle) :
    ((s.api.connected = true ∨ s.unsub ≠ none) →
      Effect.registerShutdownListener ∉ (async_update_data s o).2.2 ∧
      Effect.createBackgroundTask ∉ (async_update_data s o).2.2) ∧
    ((Effect.registerShutdownListener ∈ (async_update_data s o).2.2 ∨
      Effect.createBackgroundTask ∈ (async_update_data s o).2.2) →
      s.api.connected = false ∧ s.unsub = none) := by
  obtain ⟨⟨dev, conn⟩, unsub, data, success⟩ := s
  obtain ⟨rset, rinf, rpar, rsd⟩ := o
  cases dev <;> cases conn <;> cases unsub <;>
    cases rset <;> cases rinf <;> cases rpar <;> cases rsd <;>
    simp [async_update_data, pollTryBody, listen_websocket, wrapUpdateFailed]

/-- C1 witness: with the client already connected, a successful poll
registers no shutdown listener and creates no background task. -/
theorem push_setup_guard_witness :
    Effect.registerShutdownListener ∉
      (async_update_data sampleActiveState sampleOkOracle).2.2 ∧
    Effect.createBackgroundTask ∉
      (async_update_data sampleActiveState sampleOkOracle).2.2 :=
  (push_setup_guard sampleActiveState sampleOkOracle).1 (Or.inl rfl)

/-- C9: the registered shutdown handler clears the unsubscribe handle and
calls the client's disconnect. -/
theorem shutdown_handler_closes (s : CoordState) (h : s.unsub ≠ none) :
    (close_websocket s).1.unsub = none ∧
    Effect.disconnectCall ∈ (close_websocket s).2 :=
  ⟨rfl, by simp [close_websocket]⟩

/-- C9 witness: the shutdown handler evaluated on a state with a
registered listener. -/
theorem shutdown_handler_closes_witness :
    (close_websocket sampleSubscribedState).1.unsub = none ∧
    Effect.disconnectCall ∈ (close_websocket sampleSubscribedState).2 :=
  shutdown_handler_closes sampleSubscribedState (by simp [sampleSubscribedState])

/-- C2: any exception raised inside the poll's `try` body surfaces as an
`UpdateFailed` host error whose message carries the original exception's
message, and a poll never performs any vendor-client call more than once
(no retry of its own). -/
theorem poll_errors_wrapped_no_retry (s : CoordState) (o : PollOracle) :
    (∀ e, (pollTryBody s o).1 = .error e →
      ∃ m, (async_update_data s o).1 = .error (.updateFailed m) ∧
        ∃ pre, m = pre ++ e.msg) ∧
    (∀ c, c ∈ pollApiCalls → (async_update_data s o).2.2.count c ≤ 1) := by
  obtain ⟨⟨dev, conn⟩, unsub, data, success⟩ := s
  obtain ⟨rset, rinf, rpar, rsd⟩ := o
  constructor
  · intro e he
    refine ⟨"Unable to get data from API: " ++ e.msg, ?_,
      "Unable to get data from API: ", rfl⟩
    cases dev <;> cases conn <;> cases unsub <;>
      cases rset <;> cases rinf <;> cases rpar <;> cases rsd <;>
      simp_all [async_update_data, pollTryBody, listen_websocket, wrapUpdateFailed]
  · intro c hc
    simp only [pollApiCalls, List.mem_cons, List.mem_singleton,
      List.not_mem_nil, or_false] at hc
    cases dev <;> cases conn <;> cases unsub <;>
      cases rset <;> cases rinf <;> cases rpar <;> cases rsd <;>
      rcases hc with rfl | rfl | rfl | rfl <;>
      simp [async_update_data, pollTryBody, listen_websocket, wrapUpdateFailed,
        List.count_cons, List.count_nil]

/-- C2 witness: a poll whose parameter fetch raises a `KeyError` ends in
an `UpdateFailed` error carrying the original message, and calls the
info-fetch at most once. -/
theorem poll_errors_wrapped_no_retry_witness :
    (∃ m, (async_update_data sampleActiveState sampleFailOracle).1 =
        .error (.updateFailed m) ∧
      ∃ pre, m = pre ++ (PyErr.keyError "missing key").msg) ∧
    (async_update_data sampleActiveState sampleFailOracle).2.2.count
      Effect.getDeviceInfosCall ≤ 1 :=
  ⟨(poll_errors_wrapped_no_retry sampleActiveState sampleFailOracle).1
      (.keyError "missing key") rfl,
   (poll_errors_wrapped_no_retry sampleActiveState sampleFailOracle).2
      Effect.getDeviceInfosCall (by simp [pollApiCalls])⟩

/-- C6: when push mode is already active, a successful poll calls
`enter_sd` and then assigns the unawaited coroutine of `refresh_sd` into
the snapshot's realtime field; when push mode is not yet active, it
performs push setup (listener registration, background task, unsubscribe
handle stored) and performs no realtime fetch, returning the snapshot
unchanged. -/
theorem poll_realtime_assignment (s : CoordState) (o : PollOracle)
    (d dev0 : Device)
    (hset : o.setDeviceResult = .ok dev0)
    (hinf : o.getInfosResult = .ok ())
    (hpar : o.getParamsResult = .ok d)
    (hsd : o.enterSdResult = .ok ()) :
    ((s.api.connected = true ∨ s.unsub ≠ none) →
      (async_update_data s o).1 = .ok { d with realtime := .unawaited } ∧
      (async_update_data s o).2.2 =
        (if s.api.device.isNone then [Effect.setDeviceFromIdCall] else []) ++
        [.getDeviceInfosCall, .getDeviceInfosParametersCall,
         .enterSdCall, .refreshSdUnawaited]) ∧
    (s.api.connected = false ∧ s.unsub = none →
      (async_update_data s o).1 = .ok d ∧
      (async_update_data s o).2.1.unsub = some () ∧
      Effect.enterSdCall ∉ (async_update_data s o).2.2 ∧
      Effect.refreshSdUnawaited ∉ (async_update_data s o).2.2 ∧
      (async_update_data s o).2.2 =
        (if s.api.device.isNone then [Effect.setDeviceFromIdCall] else []) ++
        [.getDeviceInfosCall, .getDeviceInfosParametersCall,
         .registerShutdownListener, .createBackgroundTask]) := by
  obtain ⟨⟨dev, conn⟩, unsub, data, success⟩ := s
  obtain ⟨rset, rinf, rpar, rsd⟩ := o
  cases hset
  cases hinf
  cases hpar
  cases hsd
  cases dev <;> cases conn <;> cases unsub <;>
    simp [async_update_data, pollTryBody, listen_websocket]

/-- C6 witness: the push-active branch evaluated on a connected state
(realtime gets the unawaited coroutine) and the push-setup branch on an
idle state (no realtime fetch, handle stored). -/
theorem poll_realtime_assignment_witness :
    ((async_update_data sampleActiveState sampleOkOracle).1 =
        .ok { sampleDevice with realtime := .unawaited } ∧
      (async_update_data sampleActiveState sampleOkOracle).2.2 =
        (if sampleActiveState.api.device.isNone
          then [Effect.setDeviceFromIdCall] else []) ++
        [.getDeviceInfosCall, .getDeviceInfosParametersCall,
         .enterSdCall, .refreshSdUnawaited]) ∧
    ((async_update_data sampleIdleState sampleOkOracle).1 = .ok sampleDevice ∧
      (async_update_data sampleIdleState sampleOkOracle).2.1.unsub = some () ∧
      Effect.enterSdCall ∉ (async_update_data sampleIdleState sampleOkOracle).2.2 ∧
      Effect.refreshSdUnawaited ∉
        (async_update_data sampleIdleState sampleOkOracle).2.2 ∧
      (async_update_data sampleIdleState sampleOkOracle).2.2 =
        (if sampleIdleState.api.device.isNone
          then [Effect.setDeviceFromIdCall] else []) ++
        [.getDeviceInfosCall, .getDeviceInfosParametersCall,
         .registerShutdownListener, .createBackgroundTask]) :=
  ⟨(poll_realtime_assignment sampleActiveState sampleOkOracle
      sampleDevice sampleDevice rfl rfl rfl rfl).1 (Or.inl rfl),
   (poll_realtime_assignment sampleIdleState sampleOkOracle
      sampleDevice sampleDevice rfl rfl rfl rfl).2 ⟨rfl, rfl⟩⟩

/-- C7: when the listen loop terminates with a generic vendor error (a
`PyGruenbeckCloudError` that is neither the closed-connection nor the
response-status subclass), the success flag is set false and the
listener-update notification fires exactly once; when it terminates with
a closed-connection or response-status error, the success flag is set
false, no listener-update notification fires, and no error propagates to
the host (the task ends normally). -/
theorem listen_termination_flags (s : CoordState) (o : ListenOracle) (e : PyErr)
    (hc : o.connectResult = .ok ())
    (hl : o.listenResult = .error e) :
    (e.isGruenbeckError = true → e.isConnectionClosed = false →
      e.isResponseStatus = false →
      (listen s o).2.1.last_update_success = false ∧
      (listen s o).2.2.count .updateListeners = 1) ∧
    ((e.isConnectionClosed = true ∨ e.isResponseStatus = true) →
      (listen s o).2.1.last_update_success = false ∧
      (listen s o).2.2.count .updateListeners = 0 ∧
      (listen s o).1 = .ok ()) := by
  obtain ⟨⟨dev, conn⟩, unsub, data, success⟩ := s
  obtain ⟨rc, rl⟩ := o
  cases hc
  cases hl
  cases e <;> cases unsub <;>
    simp [listen, listenExceptDispatch, clearUnsub, PyErr.isGruenbeckError,
      PyErr.isConnectionClosed, PyErr.isResponseStatus, PyErr.msg,
      List.count_cons, List.count_nil]

/-- C7 witness: a listen loop terminating with a generic
`PyGruenbeckCloudError`, and one terminating with a closed-connection
error, evaluated on a subscribed state. -/
theorem listen_termination_flags_witness :
    ((listen sampleSubscribedState
        { connectResult := .ok (),
          listenResult := .error (.cloudError "vendor failure") }).2.1.last_update_success
        = false ∧
      (listen sampleSubscribedState
        { connectResult := .ok (),
          listenResult := .error (.cloudError "vendor failure") }).2.2.count
          .updateListeners = 1) ∧
    ((listen sampleSubscribedState
        { connectResult := .ok (),
          listenResult := .error (.connectionClosed "closed") }).2.1.last_update_success
        = false ∧
      (listen sampleSubscribedState
        { connectResult := .ok (),
          listenResult := .error (.connectionClosed "closed") }).2.2.count
          .updateListeners = 0 ∧
      (listen sampleSubscribedState
        { connectResult := .ok (),
          listenResult := .error (.connectionClosed "closed") }).1 = .ok ()) :=
  ⟨(listen_termination_flags sampleSubscribedState
      { connectResult := .ok (),
        listenResult := .error (.cloudError "vendor failure") }
      (.cloudError "vendor failure") rfl rfl).1 rfl rfl rfl,
   (listen_termination_flags sampleSubscribedState
      { connectResult := .ok (),
        listenResult := .error (.connectionClosed "closed") }
      (.connectionClosed "closed") rfl rfl).2 (Or.inl rfl)⟩

/-- C8: whenever the connection succeeded and the listen loop ends —
normally, or with any vendor error (the closed-connection,
response-status and generic cases are all `PyGruenbeckCloudError`
instances) — the task calls the client's disconnect, clears the
unsubscribe handle and completes without propagating an error. -/
theorem listen_disconnects_on_exit (s : CoordState) (o : ListenOracle)
    (hc : o.connectResult = .ok ())
    (hl : o.listenResult = .ok () ∨
      ∃ e, o.listenResult = .error e ∧ e.isGruenbeckError = true) :
    Effect.disconnectCall ∈ (listen s o).2.2 ∧
    (listen s o).2.1.unsub = none ∧
    (listen s o).1 = .ok () := by
  obtain ⟨⟨dev, conn⟩, unsub, data, success⟩ := s
  obtain ⟨rc, rl⟩ := o
  cases hc
  rcases hl with hl | ⟨e, hl, hgb⟩
  · cases hl
    cases unsub <;> simp [listen, listenExceptDispatch, clearUnsub]
  · cases hl
    cases e <;> simp_all [PyErr.isGruenbeckError] <;> cases unsub <;>
      simp [listen, listenExceptDispatch, clearUnsub,
        PyErr.isConnectionClosed, PyErr.isResponseStatus,
        PyErr.isGruenbeckError, PyErr.msg]

/-- C8 witness: a listen loop ending with a response-status error on a
subscribed state: disconnect is called, the handle is cleared, the task
ends normally. -/
theorem listen_disconnects_on_exit_witness :
    Effect.disconnectCall ∈ (listen sampleSubscribedState
      { connectResult := .ok (),
        listenResult := .error (.responseStatus "status 500") }).2.2 ∧
    (listen sampleSubscribedState
      { connectResult := .ok (),
        listenResult := .error (.responseStatus "status 500") }).2.1.unsub
      = none ∧
    (listen sampleSubscribedState
      { connectResult := .ok (),
        listenResult := .error (.responseStatus "status 500") }).1 = .ok () :=
  listen_disconnects_on_exit sampleSubscribedState
    { connectResult := .ok (),
      listenResult := .error (.responseStatus "status 500") }
    rfl (Or.inr ⟨.responseStatus "status 500", rfl, rfl⟩)

end GruenbeckCloud
